import Mathlib

/-!
# Verification of the Smartlead campaign MCP server

A shallow embedding, in Lean, of the two Python source files of the
repository (`src/main.py`, `src/utils.py`): the Smartlead HTTP client's
request construction and response handling, the per-operation request
shaping, the response/error formatting helpers, the context resolution,
and the tool-boundary exception handling.  JSON values are modelled by an
inductive type, Python dictionaries by association lists (keeping
insertion order and Python's overwrite-in-place semantics), raised
exceptions by an `Except` error channel, and the external world (the HTTP
response or a transport failure) by an explicit input.
-/

/-- A JSON value, as produced by `response.json()` and consumed by
`json.dumps`.  Numbers are modelled as integers (no claim involves
fractional numbers).  Objects keep insertion order, as Python dicts do. -/
inductive Json where
  | null : Json
  | bool (b : Bool) : Json
  | num (n : Int) : Json
  | str (s : String) : Json
  | arr (xs : List Json) : Json
  | obj (kvs : List (String × Json)) : Json

/-- Python `d[k] = v` on a dict modelled as an association list: overwrite
the (unique) existing entry in place, else append at the end. -/
def dictSet {α : Type} : List (String × α) → String → α → List (String × α)
  | [], k, v => [(k, v)]
  | (k', v') :: rest, k, v =>
      if k' = k then (k, v) :: rest else (k', v') :: dictSet rest k v

/-- Python `d.get(k)` / `d[k]` lookup: the value at the first (unique)
occurrence of the key. -/
def dictGet {α : Type} : List (String × α) → String → Option α
  | [], _ => none
  | (k', v') :: rest, k => if k' = k then some v' else dictGet rest k

/-- Hexadecimal digit (lowercase), for `\uXXXX` escapes. -/
def hexDigit (n : Nat) : Char :=
  if n < 10 then Char.ofNat (48 + n) else Char.ofNat (87 + n)

/-- Four-digit lowercase hex, as in Python's `\uXXXX` string escapes. -/
def hex4 (n : Nat) : String :=
  String.mk [hexDigit (n / 4096 % 16), hexDigit (n / 256 % 16),
             hexDigit (n / 16 % 16), hexDigit (n % 16)]

/-- One character of a JSON string, escaped as Python's `json.dumps` does
with `ensure_ascii=False`: the two mandatory escapes, the short control
escapes, `\uXXXX` for other control characters, all else verbatim. -/
def escapeJsonChar (c : Char) : String :=
  if c = '"' then "\\\""
  else if c = '\\' then "\\\\"
  else if c = '\n' then "\\n"
  else if c = '\t' then "\\t"
  else if c = '\r' then "\\r"
  else if c = Char.ofNat 8 then "\\b"
  else if c = Char.ofNat 12 then "\\f"
  else if c.toNat < 32 then "\\u" ++ hex4 c.toNat
  else String.singleton c

/-- A JSON string literal as `json.dumps` writes it. -/
def dumpsStringLit (s : String) : String :=
  "\"" ++ String.join (s.data.map escapeJsonChar) ++ "\""

mutual

/-- `json.dumps(v, ensure_ascii=False)`: the single-line serialization
with Python's default separators `", "` and `": "`. -/
def jsonDumps : Json → String
  | .null => "null"
  | .bool b => if b then "true" else "false"
  | .num n => toString n
  | .str s => dumpsStringLit s
  | .arr xs => "[" ++ jsonDumpsArr xs ++ "]"
  | .obj kvs => "\x7b" ++ jsonDumpsObj kvs ++ "\x7d"

/-- Array items of `json.dumps`, joined by `", "`. -/
def jsonDumpsArr : List Json → String
  | [] => ""
  | [x] => jsonDumps x
  | x :: y :: rest => jsonDumps x ++ ", " ++ jsonDumpsArr (y :: rest)

/-- Object members of `json.dumps`, joined by `", "`. -/
def jsonDumpsObj : List (String × Json) → String
  | [] => ""
  | [(k, v)] => dumpsStringLit k ++ ": " ++ jsonDumps v
  | (k, v) :: kv :: rest =>
      dumpsStringLit k ++ ": " ++ jsonDumps v ++ ", " ++ jsonDumpsObj (kv :: rest)

end

/-- `n` spaces, for `json.dumps(..., indent=2)`. -/
def spaces (n : Nat) : String :=
  String.mk (List.replicate n ' ')

mutual

/-- `json.dumps(v, indent=2)` (used on `e.details` in `handle_api_error`):
containers open with a newline, members are indented two further spaces,
and the closer returns to the enclosing indentation `ind`. -/
def jsonDumpsInd : Nat → Json → String
  | _, .null => "null"
  | _, .bool b => if b then "true" else "false"
  | _, .num n => toString n
  | _, .str s => dumpsStringLit s
  | _, .arr [] => "[]"
  | ind, .arr (x :: xs) =>
      "[\n" ++ jsonDumpsIndArr (ind + 2) (x :: xs) ++ "\n" ++ spaces ind ++ "]"
  | _, .obj [] => "\x7b\x7d"
  | ind, .obj (kv :: kvs) =>
      "\x7b\n" ++ jsonDumpsIndObj (ind + 2) (kv :: kvs) ++ "\n" ++ spaces ind ++ "\x7d"

/-- Array items of the indented dump, one per line, joined by `",\n"`. -/
def jsonDumpsIndArr : Nat → List Json → String
  | _, [] => ""
  | ind, [x] => spaces ind ++ jsonDumpsInd ind x
  | ind, x :: y :: rest =>
      spaces ind ++ jsonDumpsInd ind x ++ ",\n" ++ jsonDumpsIndArr ind (y :: rest)

/-- Object members of the indented dump, one per line, joined by `",\n"`. -/
def jsonDumpsIndObj : Nat → List (String × Json) → String
  | _, [] => ""
  | ind, [(k, v)] => spaces ind ++ dumpsStringLit k ++ ": " ++ jsonDumpsInd ind v
  | ind, (k, v) :: kv :: rest =>
      spaces ind ++ dumpsStringLit k ++ ": " ++ jsonDumpsInd ind v ++ ",\n" ++
        jsonDumpsIndObj ind (kv :: rest)

end

mutual

/-- Python `repr` of a JSON-shaped value (`None`/`True`/`False`, numbers,
strings in single quotes, lists in brackets, dicts in braces).  String
contents are kept verbatim: none of the values this development evaluates
on need `repr`-level escaping. -/
def pyRepr : Json → String
  | .null => "None"
  | .bool b => if b then "True" else "False"
  | .num n => toString n
  | .str s => "\x27" ++ s ++ "\x27"
  | .arr xs => "[" ++ pyReprArr xs ++ "]"
  | .obj kvs => "\x7b" ++ pyReprObj kvs ++ "\x7d"

/-- List items under Python `repr`, joined by `", "`. -/
def pyReprArr : List Json → String
  | [] => ""
  | [x] => pyRepr x
  | x :: y :: rest => pyRepr x ++ ", " ++ pyReprArr (y :: rest)

/-- Dict members under Python `repr`, joined by `", "`. -/
def pyReprObj : List (String × Json) → String
  | [] => ""
  | [(k, v)] => "\x27" ++ k ++ "\x27: " ++ pyRepr v
  | (k, v) :: kv :: rest =>
      "\x27" ++ k ++ "\x27: " ++ pyRepr v ++ ", " ++ pyReprObj (kv :: rest)

end

/-- Python `str` of a JSON-shaped value: strings verbatim, everything
else as `repr` (`str(True) = "True"`, `str(None) = "None"`, …).  This is
what an f-string interpolation applies. -/
def pyStr : Json → String
  | .str s => s
  | other => pyRepr other

/-- Python truthiness of a JSON-shaped value (`if e.details:`): `None`,
`False`, `0`, `""`, `[]` and `{}` are falsy, everything else truthy. -/
def pyTruthy : Json → Bool
  | .null => false
  | .bool b => b
  | .num n => n ≠ 0
  | .str s => s ≠ ""
  | .arr xs => !xs.isEmpty
  | .obj kvs => !kvs.isEmpty

/-- The Python name of a JSON-shaped value's type, as it appears in
`AttributeError` messages. -/
def pyTypeName : Json → String
  | .null => "NoneType"
  | .bool _ => "bool"
  | .num _ => "int"
  | .str _ => "str"
  | .arr _ => "list"
  | .obj _ => "dict"

/-- A raised Python exception, as this program can produce one:
`ValueError` (context resolution, environment validation),
`AttributeError` (attribute lookup on an object without it), and the
repository's `SmartleadAPIError(status_code, message, details)`. -/
inductive PyErr where
  | valueError (msg : String)
  | attributeError (msg : String)
  | smartleadAPIError (status_code : Nat) (message : Json) (details : Option Json)

/-- Python `str(e)` of an exception: `ValueError`/`AttributeError` show
their message; `SmartleadAPIError.__init__` passed
`f"Smartlead API Error ({status_code}): {message}"` to `super().__init__`. -/
def pyStrErr : PyErr → String
  | .valueError msg => msg
  | .attributeError msg => msg
  | .smartleadAPIError status_code message _ =>
      "Smartlead API Error (" ++ toString status_code ++ "): " ++ pyStr message

/-- Python `v.get(k, default)` where `v` came from `response.json()`:
only a dict has `.get`; on any other value the attribute lookup raises
`AttributeError`. -/
def jsonGet (v : Json) (k : String) (default : Json) : Except PyErr Json :=
  match v with
  | .obj kvs => .ok ((dictGet kvs k).getD default)
  | other =>
      .error (.attributeError
        ("\x27" ++ pyTypeName other ++ "\x27 object has no attribute \x27get\x27"))

/-- The client dataclass of `utils.py` (`api_key`, `api_url` defaulting to
the production endpoint, `timeout`, optional injected connection — the
connection object itself is external, so only its presence is kept). -/
structure SmartleadClient where
  api_key : String
  api_url : String := "https://server.smartlead.ai/api/v1"
  timeout : Nat := 30
  has_http_client : Bool := false

/-- Python `s.lstrip(\x27/\x27)`: drop every leading slash. -/
def lstripSlash (s : String) : String :=
  String.mk (s.data.dropWhile (fun c => c = '/'))

/-- Python `s.rstrip(\x27/\x27)`: drop every trailing slash. -/
def rstripSlash (s : String) : String :=
  String.mk (s.data.reverse.dropWhile (fun c => c = '/')).reverse

/-- `utils.py:62`: `f"{self.api_url.rstrip(\x27/\x27)}/{endpoint.lstrip(\x27/\x27)}"`. -/
def joinUrl (base endpoint : String) : String :=
  rstripSlash base ++ "/" ++ lstripSlash endpoint

/-- The default headers of `_request`. -/
def defaultHeaders : List (String × String) :=
  [("Content-Type", "application/json"), ("Accept", "application/json")]

/-- `utils.py:78-80`: `for key, value in headers.items(): default_headers[key] = value`. -/
def mergeHeaders (defaults caller : List (String × String)) : List (String × String) :=
  caller.foldl (fun acc kv => dictSet acc kv.1 kv.2) defaults

/-- The outgoing request as `_request` assembles it before the HTTP call:
method, joined URL, query parameters with the API key injected, the JSON
body passed through unchanged, and the merged headers. -/
structure RequestDescriptor where
  method : String
  url : String
  params : List (String × Json)
  json_data : Option Json
  headers : List (String × String)

/-- `utils.py:62-97`: the request-construction half of
`SmartleadClient._request`.  A `none` for `params`/`headers` is Python's
`None` default (an empty dict is then used). -/
def buildRequest (c : SmartleadClient) (method endpoint : String)
    (params : Option (List (String × Json))) (json_data : Option Json)
    (headers : Option (List (String × String))) : RequestDescriptor :=
  { method := method
    url := joinUrl c.api_url endpoint
    params := dictSet (params.getD []) "api_key" (.str c.api_key)
    json_data := json_data
    headers := mergeHeaders defaultHeaders (headers.getD []) }

/-- `utils.py:69` seen from the caller: `params["api_key"] = self.api_key`
is executed on the very dict object the caller passed (no copy is made
when `params` is not `None`), so this is the caller's dict after the
call, by explicit state passing. -/
def paramsAfterRequest (c : SmartleadClient) (callerParams : List (String × Json)) :
    List (String × Json) :=
  dictSet callerParams "api_key" (.str c.api_key)

/-- What the external world did with the HTTP call: a response (status
code, the result of `response.json()` — `none` when the body is not
JSON — and `response.text`), or a transport-level `httpx.RequestError`
with its message. -/
inductive TransportResult where
  | response (status_code : Nat) (jsonBody : Option Json) (text : String)
  | networkError (msg : String)

/-- `utils.py:90-124`: the response-handling half of
`SmartleadClient._request`.  Parse failure wraps the raw text; a status
`≥ 400` extracts `message`/`errors` via `.get` (an `AttributeError` from
a non-dict body propagates, as it is no `httpx.RequestError`) and raises
`SmartleadAPIError`; a transport failure is re-raised as
`SmartleadAPIError(500, f"Request error: {e}")` with no details. -/
def requestOutcome : TransportResult → Except PyErr Json
  | .networkError msg =>
      .error (.smartleadAPIError 500 (.str ("Request error: " ++ msg)) none)
  | .response status_code jsonBody text =>
      let response_data :=
        match jsonBody with
        | some j => j
        | none => Json.obj [("message", .str text)]
      if status_code ≥ 400 then
        match jsonGet response_data "message" (.str "Unknown error") with
        | .error e => .error e
        | .ok error_message =>
          match jsonGet response_data "errors" (.obj []) with
          | .error e => .error e
          | .ok error_details =>
              .error (.smartleadAPIError status_code error_message (some error_details))
      else
        .ok response_data

/-- The Python pattern `if v is not None: data[key] = conv(v)` used by the
per-operation wrappers to fold only the present optional arguments into
the request body. -/
def setIfSome {α : Type} (d : List (String × Json)) (v : Option α) (key : String)
    (conv : α → Json) : List (String × Json) :=
  match v with
  | some x => dictSet d key (conv x)
  | none => d

/-- `utils.py:232-243`: the request body of
`SmartleadClient.update_campaign_schedule` — four required fields, three
optionals added only when not `None`. -/
def updateCampaignScheduleData (timezone : String) (days_of_the_week : List Int)
    (start_hour end_hour : String) (min_time_btw_emails : Option Int)
    (max_new_leads_per_day : Option Int) (schedule_start_time : Option String) :
    List (String × Json) :=
  let data : List (String × Json) :=
    [("timezone", .str timezone),
     ("days_of_the_week", .arr (days_of_the_week.map .num)),
     ("start_hour", .str start_hour),
     ("end_hour", .str end_hour)]
  let data := setIfSome data min_time_btw_emails "min_time_btw_emails" .num
  let data := setIfSome data max_new_leads_per_day "max_new_leads_per_day" .num
  let data := setIfSome data schedule_start_time "schedule_start_time" .str
  data

/-- `utils.py:297-327`: the request body of
`SmartleadClient.update_campaign_settings` — it starts empty and each of
the fifteen optional arguments is added only when not `None`. -/
def updateCampaignSettingsData (name : Option String)
    (track_settings : Option (List String)) (stop_lead_settings : Option String)
    (unsubscribe_text : Option String) (send_as_plain_text : Option Bool)
    (force_plain_text : Option Bool) (enable_ai_esp_matching : Option Bool)
    (follow_up_percentage : Option Int) (client_id : Option Int)
    (add_unsubscribe_tag : Option Bool) (auto_pause_domain_leads_on_reply : Option Bool)
    (ignore_ss_mailbox_sending_limit : Option Bool)
    (bounce_autopause_threshold : Option String)
    (out_of_office_detection_settings : Option (List (String × Json)))
    (ai_categorisation_options : Option (List Int)) : List (String × Json) :=
  let data : List (String × Json) := []
  let data := setIfSome data name "name" .str
  let data := setIfSome data track_settings "track_settings" (fun l => .arr (l.map .str))
  let data := setIfSome data stop_lead_settings "stop_lead_settings" .str
  let data := setIfSome data unsubscribe_text "unsubscribe_text" .str
  let data := setIfSome data send_as_plain_text "send_as_plain_text" .bool
  let data := setIfSome data force_plain_text "force_plain_text" .bool
  let data := setIfSome data enable_ai_esp_matching "enable_ai_esp_matching" .bool
  let data := setIfSome data follow_up_percentage "follow_up_percentage" .num
  let data := setIfSome data client_id "client_id" .num
  let data := setIfSome data add_unsubscribe_tag "add_unsubscribe_tag" .bool
  let data := setIfSome data auto_pause_domain_leads_on_reply
    "auto_pause_domain_leads_on_reply" .bool
  let data := setIfSome data ignore_ss_mailbox_sending_limit
    "ignore_ss_mailbox_sending_limit" .bool
  let data := setIfSome data bounce_autopause_threshold "bounce_autopause_threshold" .str
  let data := setIfSome data out_of_office_detection_settings
    "out_of_office_detection_settings" .obj
  let data := setIfSome data ai_categorisation_options "ai_categorisation_options"
    (fun l => .arr (l.map .num))
  data

/-- `utils.py:525-528`: the query of `get_campaign_analytics` (both
parameters required, no conditionals). -/
def getCampaignAnalyticsParams (start_date end_date : String) : List (String × Json) :=
  [("start_date", .str start_date), ("end_date", .str end_date)]

/-- `utils.py:699-704`: the query of `get_campaign_sequence_analytics`.
`time_zone` is guarded by `if time_zone:` — Python truthiness, so both
`None` and the empty string are omitted (every other optional parameter
in the client is guarded by `is not None`). -/
def getCampaignSequenceAnalyticsParams (start_date end_date : String)
    (time_zone : Option String) : List (String × Json) :=
  let params : List (String × Json) :=
    [("start_date", .str start_date), ("end_date", .str end_date)]
  match time_zone with
  | some tz => if tz = "" then params else dictSet params "time_zone" (.str tz)
  | none => params

/-- `utils.py:152`: `list_campaigns` delegates to
`_request("GET", "campaigns/")`. -/
def listCampaignsRequest (c : SmartleadClient) : RequestDescriptor :=
  buildRequest c "GET" "campaigns/" none none none

/-- `utils.py:245`: the request issued by `update_campaign_schedule`. -/
def updateCampaignScheduleRequest (c : SmartleadClient) (campaign_id : String)
    (timezone : String) (days_of_the_week : List Int) (start_hour end_hour : String)
    (min_time_btw_emails : Option Int) (max_new_leads_per_day : Option Int)
    (schedule_start_time : Option String) : RequestDescriptor :=
  buildRequest c "POST" ("campaigns/" ++ campaign_id ++ "/schedule") none
    (some (.obj (updateCampaignScheduleData timezone days_of_the_week start_hour
      end_hour min_time_btw_emails max_new_leads_per_day schedule_start_time)))
    none

/-- `utils.py:480-483`: the request issued by `patch_campaign_status`. -/
def patchCampaignStatusRequest (c : SmartleadClient) (campaign_id status : String) :
    RequestDescriptor :=
  buildRequest c "POST" ("campaigns/" ++ campaign_id ++ "/status") none
    (some (.obj [("status", .str status)])) none

/-- `utils.py:653-654`: the request issued by `export_campaign_data`,
with its caller-supplied `Accept: text/plain` header. -/
def exportCampaignDataRequest (c : SmartleadClient) (campaign_id : String) :
    RequestDescriptor :=
  buildRequest c "GET" ("campaigns/" ++ campaign_id ++ "/leads-export") none none
    (some [("Accept", "text/plain")])

/-- `utils.py:722-739`: `format_response` — dicts and lists are dumped
with `json.dumps(data, ensure_ascii=False)`, everything else is `str(data)`.
(The surrounding `try` cannot fire in this model: serializing a `Json`
value never raises.) -/
def format_response (data : Json) : String :=
  match data with
  | .obj _ => jsonDumps data
  | .arr _ => jsonDumps data
  | other => pyStr other

/-- `utils.py:768-784`: `handle_api_error` — a `SmartleadAPIError`
becomes `f"Error ({e.status_code}): {e.message}"`, with
`json.dumps(e.details, indent=2)` appended when the details are truthy;
any other exception becomes `f"Error: {str(e)}"`. -/
def handle_api_error (e : PyErr) : String :=
  match e with
  | .smartleadAPIError status_code message details =>
      let error_msg := "Error (" ++ toString status_code ++ "): " ++ pyStr message
      match details with
      | some d =>
          if pyTruthy d then error_msg ++ "\nDetails: " ++ jsonDumpsInd 0 d
          else error_msg
      | none => error_msg
  | other => "Error: " ++ pyStrErr other

/-- The shape of the execution context a tool receives, as
`get_client_from_context` probes it: does `ctx.request_context` have a
`lifespan_context` attribute, does that have a `smartlead_client`
attribute, is the value an instance of `SmartleadClient`, and the client
itself. -/
structure Ctx where
  has_lifespan_context : Bool
  has_smartlead_client : Bool
  client_is_smartlead : Bool
  client : SmartleadClient

/-- `utils.py:742-765`: `get_client_from_context` — three validation
checks, each raising `ValueError` with its message, then the client. -/
def get_client_from_context (ctx : Ctx) : Except PyErr SmartleadClient :=
  if !ctx.has_lifespan_context then
    .error (.valueError "Request context not properly initialized")
  else if !ctx.has_smartlead_client then
    .error (.valueError "Smartlead client not found in context")
  else if !ctx.client_is_smartlead then
    .error (.valueError "Invalid Smartlead client type in context")
  else
    .ok ctx.client

/-- The tool-boundary pattern every tool of `main.py` repeats:
`try: client = await get_client_from_context(ctx); response = await
client.<op>(...); return format_response(response) except Exception as
e: return handle_api_error(e)`.  The operation body is abstracted as any
client-consuming computation that may raise; the result is `.ok` exactly
when no exception escapes the tool. -/
def runTool (ctx : Ctx) (body : SmartleadClient → Except PyErr Json) :
    Except PyErr String :=
  match get_client_from_context ctx with
  | .error e => .ok (handle_api_error e)
  | .ok client =>
      match body client with
      | .error e => .ok (handle_api_error e)
      | .ok response => .ok (format_response response)

/-- `main.py:103-140`: the `list_campaigns` tool, with the external
world's answer to its single HTTP call made explicit. -/
def listCampaignsTool (ctx : Ctx) (transport : TransportResult) : Except PyErr String :=
  runTool ctx (fun _ => requestOutcome transport)

/-- The attributes a `SmartleadClient` instance actually has: the four
dataclass fields and the methods defined in `utils.py`. -/
def smartleadClientAttributes : List String :=
  ["api_key", "api_url", "timeout", "http_client",
   "_request", "list_campaigns", "get_campaign", "create_campaign",
   "update_campaign_schedule", "update_campaign_settings", "save_campaign_sequence",
   "patch_campaign_status", "get_campaign_analytics", "get_campaign_sequence",
   "get_campaigns_by_lead_id", "export_campaign_data",
   "get_campaign_sequence_analytics"]

/-- Python attribute lookup on a `SmartleadClient` instance: succeeds on
a defined field or method, raises `AttributeError` otherwise. -/
def getattrSmartleadClient (name : String) : Except PyErr Unit :=
  if name ∈ smartleadClientAttributes then .ok ()
  else .error (.attributeError
    ("\x27SmartleadClient\x27 object has no attribute \x27" ++ name ++ "\x27"))

/-- `main.py:88-90`: the shutdown path of `smartlead_lifespan` — the
`finally` block runs `await smartlead_client.close()`, an attribute
lookup of `close` on the client followed by a call. -/
def lifespanShutdown : Except PyErr Unit :=
  getattrSmartleadClient "close"

/-- Whether a JSON value is a dict or a list — the values
`format_response` serializes with `json.dumps` rather than `str`. -/
def Json.isContainer : Json → Bool
  | .obj _ => true
  | .arr _ => true
  | _ => false

lemma dictGet_dictSet_self {α : Type} (d : List (String × α)) (k : String) (v : α) :
    dictGet (dictSet d k v) k = some v := by
  induction d with
  | nil => simp [dictSet, dictGet]
  | cons hd tl ih =>
      obtain ⟨k', v'⟩ := hd
      by_cases h : k' = k
      · simp [dictSet, dictGet, h]
      · simp [dictSet, dictGet, h, ih]

lemma dictGet_dictSet_ne {α : Type} (d : List (String × α)) {k k' : String} (v : α)
    (h : k' ≠ k) : dictGet (dictSet d k v) k' = dictGet d k' := by
  have h' : k ≠ k' := Ne.symm h
  induction d with
  | nil => simp [dictSet, dictGet, h']
  | cons hd tl ih =>
      obtain ⟨k₀, v₀⟩ := hd
      by_cases h₀ : k₀ = k
      · subst h₀
        simp [dictSet, dictGet, h']
      · simp [dictSet, dictGet, h₀, ih]

lemma mem_dictSet {α : Type} {d : List (String × α)} {k' : String} {v' : α}
    (k : String) (v : α) (h : (k', v') ∈ dictSet d k v) :
    (k', v') ∈ d ∨ (k' = k ∧ v' = v) := by
  induction d with
  | nil =>
      simp [dictSet] at h
      exact Or.inr ⟨h.1, h.2⟩
  | cons hd tl ih =>
      obtain ⟨k₀, v₀⟩ := hd
      by_cases h₀ : k₀ = k
      · subst h₀
        simp [dictSet] at h
        rcases h with ⟨rfl, rfl⟩ | h
        · exact Or.inr ⟨rfl, rfl⟩
        · exact Or.inl (List.mem_cons_of_mem _ h)
      · simp [dictSet, h₀] at h
        rcases h with ⟨rfl, rfl⟩ | h
        · exact Or.inl (List.mem_cons_self _ _)
        · rcases ih h with h | h
          · exact Or.inl (List.mem_cons_of_mem _ h)
          · exact Or.inr h

lemma mem_keys_dictSet {α : Type} {d : List (String × α)} {x : String}
    (k : String) (v : α) (h : x ∈ (dictSet d k v).map Prod.fst) :
    x = k ∨ x ∈ d.map Prod.fst := by
  simp only [List.mem_map] at h
  obtain ⟨⟨k', v'⟩, hmem, rfl⟩ := h
  rcases mem_dictSet k v hmem with h | h
  · exact Or.inr (List.mem_map.mpr ⟨(k', v'), h, rfl⟩)
  · exact Or.inl h.1

lemma mem_keys_setIfSome {α : Type} {d : List (String × Json)} {v : Option α}
    {key : String} {conv : α → Json} {x : String}
    (h : x ∈ (setIfSome d v key conv).map Prod.fst) :
    (x = key ∧ v.isSome) ∨ x ∈ d.map Prod.fst := by
  cases v with
  | none => exact Or.inr h
  | some a =>
      rcases mem_keys_dictSet key (conv a) h with h | h
      · exact Or.inl ⟨h, rfl⟩
      · exact Or.inr h

lemma mem_foldl_dictSet {α : Type} (l : List (String × α)) (d : List (String × α))
    {kv : String × α}
    (h : kv ∈ l.foldl (fun acc p => dictSet acc p.1 p.2) d) : kv ∈ d ∨ kv ∈ l := by
  induction l generalizing d with
  | nil => exact Or.inl h
  | cons hd tl ih =>
      rcases ih (dictSet d hd.1 hd.2) h with h' | h'
      · obtain ⟨k', v'⟩ := kv
        rcases mem_dictSet hd.1 hd.2 h' with h'' | ⟨rfl, rfl⟩
        · exact Or.inl h''
        · exact Or.inr (by simp)
      · exact Or.inr (List.mem_cons_of_mem _ h')

lemma mem_mergeHeaders {defaults caller : List (String × String)} {kv : String × String}
    (h : kv ∈ mergeHeaders defaults caller) : kv ∈ defaults ∨ kv ∈ caller :=
  mem_foldl_dictSet caller defaults h

lemma dictGet_foldl_dictSet_of_forall_ne {α : Type} (l : List (String × α))
    (d : List (String × α)) {k : String} (h : ∀ p ∈ l, p.1 ≠ k) :
    dictGet (l.foldl (fun acc p => dictSet acc p.1 p.2) d) k = dictGet d k := by
  induction l generalizing d with
  | nil => rfl
  | cons hd tl ih =>
      have hhd : hd.1 ≠ k := h hd (List.mem_cons_self _ _)
      have htl : ∀ p ∈ tl, p.1 ≠ k := fun p hp => h p (List.mem_cons_of_mem _ hp)
      calc dictGet ((hd :: tl).foldl (fun acc p => dictSet acc p.1 p.2) d) k
          = dictGet (dictSet d hd.1 hd.2) k := ih (dictSet d hd.1 hd.2) htl
        _ = dictGet d k := dictGet_dictSet_ne d hd.2 (Ne.symm hhd)

lemma dictGet_mergeHeaders_caller_wins {defaults caller : List (String × String)}
    {k : String} {v : String} (hnd : (caller.map Prod.fst).Nodup)
    (h : (k, v) ∈ caller) : dictGet (mergeHeaders defaults caller) k = some v := by
  induction caller generalizing defaults with
  | nil => cases h
  | cons hd tl ih =>
      obtain ⟨k₀, v₀⟩ := hd
      simp only [List.map_cons, List.nodup_cons] at hnd
      rcases List.mem_cons.mp h with heq | hmem
      · cases heq
        have htl : ∀ p ∈ tl, p.1 ≠ k := by
          intro p hp hpk
          exact hnd.1 (hpk ▸ List.mem_map.mpr ⟨p, hp, rfl⟩)
        calc dictGet (mergeHeaders defaults ((k, v) :: tl)) k
            = dictGet (dictSet defaults k v) k :=
              dictGet_foldl_dictSet_of_forall_ne tl (dictSet defaults k v) htl
          _ = some v := dictGet_dictSet_self defaults k v
      · exact ih hnd.2 hmem

lemma mem_value_dictSet_self_of_nodup {α : Type} {p : List (String × α)}
    {k : String} {x v : α} (hnd : (p.map Prod.fst).Nodup)
    (h : (k, v) ∈ dictSet p k x) : v = x := by
  induction p with
  | nil =>
      simp [dictSet] at h
      exact h
  | cons hd tl ih =>
      obtain ⟨k₀, v₀⟩ := hd
      simp only [List.map_cons, List.nodup_cons] at hnd
      by_cases h₀ : k₀ = k
      · subst h₀
        simp [dictSet] at h
        rcases h with ⟨_, rfl⟩ | h
        · rfl
        · exact absurd (List.mem_map.mpr ⟨(k₀, v), h, rfl⟩) hnd.1
      · simp [dictSet, h₀] at h
        rcases h with ⟨hk, _⟩ | h
        · exact absurd hk.symm h₀
        · exact ih hnd.2 h

lemma head_dropWhile_not {p : Char → Bool} :
    ∀ (l : List Char) {c : Char}, (l.dropWhile p).head? = some c → p c = false := by
  intro l
  induction l with
  | nil => intro c h; cases h
  | cons hd tl ih =>
      intro c h
      by_cases hp : p hd
      · exact ih (by simpa [List.dropWhile, hp] using h)
      · simp [List.dropWhile, hp] at h
        subst h
        exact Bool.of_not_eq_true hp

/-- C7: the spec says the lifespan's shutdown path releases the client by
invoking a close operation on it and that this step does not fail; the
code's `finally` block calls `smartlead_client.close()`, but the
`SmartleadClient` dataclass defines no `close` attribute, so shutdown
raises `AttributeError` instead. -/
theorem c7_shutdown_close_is_missing :
    lifespanShutdown
      = .error (.attributeError
          "\x27SmartleadClient\x27 object has no attribute \x27close\x27")
    ∧ "close" ∉ smartleadClientAttributes := by
  refine ⟨?_, by decide⟩
  rfl

/-- C8: the request URL is the base with trailing slashes stripped, then
one slash, then the endpoint with leading slashes stripped — the joined
URL has exactly one slash at the join point, the stripped base never ends
in a slash and the stripped endpoint never starts with one; and this is
the URL `_request` puts in every request descriptor. -/
theorem c8_url_join (base endpoint : String) :
    (joinUrl base endpoint).data
        = (rstripSlash base).data ++ '/' :: (lstripSlash endpoint).data
    ∧ (∀ c, (rstripSlash base).data.getLast? = some c → c ≠ '/')
    ∧ (∀ c, (lstripSlash endpoint).data.head? = some c → c ≠ '/')
    ∧ ∀ (cl : SmartleadClient) (m : String) (p : Option (List (String × Json)))
        (j : Option Json) (h : Option (List (String × String))),
        (buildRequest cl m endpoint p j h).url = joinUrl cl.api_url endpoint := by
  refine ⟨?_, ?_, ?_, fun _ _ _ _ _ => rfl⟩
  · show (rstripSlash base ++ "/" ++ lstripSlash endpoint).data = _
    simp [String.data_append]
  · intro c hc
    have h1 : (base.data.reverse.dropWhile (fun ch => ch = '/')).head? = some c := by
      have := hc
      rwa [rstripSlash, String.data, List.getLast?_reverse] at this
    have := head_dropWhile_not _ h1
    simpa using this
  · intro c hc
    have h1 : (endpoint.data.dropWhile (fun ch => ch = '/')).head? = some c := hc
    have := head_dropWhile_not _ h1
    simpa using this

theorem c8_url_join_witness :
    (joinUrl "https://server.smartlead.ai/api/v1/" "/campaigns/").data
        = "https://server.smartlead.ai/api/v1/campaigns/".data
    ∧ ('1' : Char) ≠ '/' ∧ ('c' : Char) ≠ '/' :=
  ⟨((c8_url_join "https://server.smartlead.ai/api/v1/" "/campaigns/").1).trans (by decide),
   (c8_url_join "https://server.smartlead.ai/api/v1/" "/campaigns/").2.1 '1' (by decide),
   (c8_url_join "https://server.smartlead.ai/api/v1/" "/campaigns/").2.2.1 'c' (by decide)⟩

/-- C10: `_request` writes the API key into the very params dict the
caller passed: after the call the dict maps `"api_key"` to the client's
configured key, any caller-supplied `"api_key"` value has been
overwritten by it, and this dict is exactly the query-parameter set of
the outgoing request. -/
theorem c10_params_dict_mutated (c : SmartleadClient) (p : List (String × Json))
    (method endpoint : String) (json_data : Option Json)
    (headers : Option (List (String × String))) :
    dictGet (paramsAfterRequest c p) "api_key" = some (.str c.api_key)
    ∧ ((p.map Prod.fst).Nodup →
        ∀ v, ("api_key", v) ∈ paramsAfterRequest c p → v = .str c.api_key)
    ∧ (buildRequest c method endpoint (some p) json_data headers).params
        = paramsAfterRequest c p := by
  refine ⟨dictGet_dictSet_self p "api_key" (.str c.api_key), ?_, rfl⟩
  intro hnd v hv
  exact mem_value_dictSet_self_of_nodup hnd hv

theorem c10_params_dict_mutated_witness :
    ∀ v, ("api_key", v) ∈
        paramsAfterRequest ⟨"secret", "https://server.smartlead.ai/api/v1", 30, false⟩
          [("api_key", .str "stale"), ("start_date", .str "2025-01-01")] →
      v = .str "secret" :=
  (c10_params_dict_mutated ⟨"secret", "https://server.smartlead.ai/api/v1", 30, false⟩
    [("api_key", .str "stale"), ("start_date", .str "2025-01-01")]
    "GET" "campaigns/" none none).2.1 (by decide)

/-- C9: in `get_campaign_sequence_analytics` the optional `time_zone` is
guarded by Python truthiness, so an explicitly provided empty string is
silently dropped from the query, while a non-empty one is appended; the
other optional parameters are guarded by `is not None`, so an explicit
`0` (`min_time_btw_emails`) or an explicit empty string
(`unsubscribe_text`) is sent. -/
theorem c9_time_zone_truthiness :
    (∀ sd ed, getCampaignSequenceAnalyticsParams sd ed (some "")
        = [("start_date", .str sd), ("end_date", .str ed)])
    ∧ (∀ sd ed tz, tz ≠ "" →
        getCampaignSequenceAnalyticsParams sd ed (some tz)
          = [("start_date", .str sd), ("end_date", .str ed), ("time_zone", .str tz)])
    ∧ (∀ tzn days sh eh,
        dictGet (updateCampaignScheduleData tzn days sh eh (some 0) none none)
          "min_time_btw_emails" = some (.num 0))
    ∧ dictGet (updateCampaignSettingsData none none none (some "") none none none
        none none none none none none none none) "unsubscribe_text"
        = some (.str "") := by
  refine ⟨fun sd ed => rfl, ?_, ?_, rfl⟩
  · intro sd ed tz htz
    simp [getCampaignSequenceAnalyticsParams, dictSet, htz]
  · intro tzn days sh eh
    simp [updateCampaignScheduleData, setIfSome, dictSet, dictGet]

theorem c9_time_zone_truthiness_witness :
    getCampaignSequenceAnalyticsParams "2025-01-01 00:00:00" "2025-02-01 00:00:00"
        (some "Europe/London")
      = [("start_date", .str "2025-01-01 00:00:00"),
         ("end_date", .str "2025-02-01 00:00:00"),
         ("time_zone", .str "Europe/London")] :=
  c9_time_zone_truthiness.2.1 "2025-01-01 00:00:00" "2025-02-01 00:00:00"
    "Europe/London" (by decide)

/-- C5: whatever the HTTP method, `_request` puts the configured API key
into the query parameters under `"api_key"`, passes the JSON body through
unchanged (so the key is never added to it), and sends only the two
default headers plus the caller's own — so no Authorization/bearer header
is ever introduced by the client. -/
theorem c5_api_key_in_query (c : SmartleadClient) (method endpoint : String)
    (params : Option (List (String × Json))) (json_data : Option Json)
    (headers : Option (List (String × String))) :
    dictGet (buildRequest c method endpoint params json_data headers).params "api_key"
      = some (.str c.api_key)
    ∧ (buildRequest c method endpoint params json_data headers).json_data = json_data
    ∧ ∀ kv, kv ∈ (buildRequest c method endpoint params json_data headers).headers →
        kv ∈ defaultHeaders ∨ kv ∈ headers.getD [] := by
  refine ⟨?_, rfl, ?_⟩
  · show dictGet (dictSet (params.getD []) "api_key" (Json.str c.api_key)) "api_key"
        = some (Json.str c.api_key)
    exact dictGet_dictSet_self _ "api_key" (Json.str c.api_key)
  · intro kv hkv
    have hkv' : kv ∈ mergeHeaders defaultHeaders (headers.getD []) := hkv
    exact mem_mergeHeaders hkv'

theorem c5_api_key_in_query_witness :
    dictGet (buildRequest ⟨"secret", "https://server.smartlead.ai/api/v1", 30, false⟩
        "POST" "campaigns/create" none (some (.obj [("name", .str "c")])) none).params
        "api_key" = some (.str "secret")
    ∧ (("Content-Type", "application/json")
         ∈ defaultHeaders ∨ ("Content-Type", "application/json") ∈ ([] : List (String × String))) :=
  ⟨(c5_api_key_in_query ⟨"secret", "https://server.smartlead.ai/api/v1", 30, false⟩
      "POST" "campaigns/create" none (some (.obj [("name", .str "c")])) none).1,
   (c5_api_key_in_query ⟨"secret", "https://server.smartlead.ai/api/v1", 30, false⟩
      "POST" "campaigns/create" none (some (.obj [("name", .str "c")])) none).2.2
      ("Content-Type", "application/json") (by decide)⟩

/-- C6: the sent headers are the two JSON defaults merged with the
caller's headers, the caller winning on a conflicting key and the
defaults surviving otherwise; hence `export_campaign_data` sends
`Accept: text/plain`, and a `< 400` response whose body is not JSON is
wrapped by the client as `{"message": <raw text>}`. -/
theorem c6_header_merge_and_text_fallback :
    (∀ (defaults caller : List (String × String)) k v,
        (caller.map Prod.fst).Nodup → (k, v) ∈ caller →
        dictGet (mergeHeaders defaults caller) k = some v)
    ∧ (∀ (defaults caller : List (String × String)) k,
        (∀ p ∈ caller, p.1 ≠ k) →
        dictGet (mergeHeaders defaults caller) k = dictGet defaults k)
    ∧ (∀ (c : SmartleadClient) campaign_id,
        (exportCampaignDataRequest c campaign_id).headers
          = [("Content-Type", "application/json"), ("Accept", "text/plain")])
    ∧ (∀ status text, status < 400 →
        requestOutcome (.response status none text)
          = .ok (.obj [("message", .str text)])) := by
  refine ⟨fun _ _ _ _ hnd h => dictGet_mergeHeaders_caller_wins hnd h,
    fun _ caller _ h => dictGet_foldl_dictSet_of_forall_ne caller _ h,
    fun _ _ => rfl, ?_⟩
  intro status text hlt
  simp [requestOutcome, Nat.not_le_of_lt hlt]

theorem c6_header_merge_and_text_fallback_witness :
    dictGet (mergeHeaders defaultHeaders [("Accept", "text/plain")]) "Accept"
        = some "text/plain"
    ∧ dictGet (mergeHeaders defaultHeaders [("Accept", "text/plain")]) "Content-Type"
        = some "application/json"
    ∧ requestOutcome (.response 200 none "id,email\n1,a@b.c")
        = .ok (.obj [("message", .str "id,email\n1,a@b.c")]) :=
  ⟨c6_header_merge_and_text_fallback.1 defaultHeaders [("Accept", "text/plain")]
      "Accept" "text/plain" (by decide) (by decide),
   c6_header_merge_and_text_fallback.2.1 defaultHeaders [("Accept", "text/plain")]
      "Content-Type" (by decide),
   c6_header_merge_and_text_fallback.2.2.2 200 "id,email\n1,a@b.c" (by decide)⟩

/-- C4: the per-operation wrappers with optional arguments fold only the
present optionals into the outgoing body/query — every key sent is either
a required field or an optional one that was explicitly provided — and
the spec's schedule scenario with no optionals produces exactly the four
required keys and no `min_time_btw_emails`. -/
theorem c4_optional_args_omitted_when_unset :
    (updateCampaignScheduleData "Australia/Sydney" [1, 2, 3, 4, 5] "10:00" "23:00"
        none none none
      = [("timezone", .str "Australia/Sydney"),
         ("days_of_the_week", .arr [.num 1, .num 2, .num 3, .num 4, .num 5]),
         ("start_hour", .str "10:00"), ("end_hour", .str "23:00")])
    ∧ (∀ tz days sh eh o₁ o₂ o₃ k,
        k ∈ (updateCampaignScheduleData tz days sh eh o₁ o₂ o₃).map Prod.fst →
        k ∈ ["timezone", "days_of_the_week", "start_hour", "end_hour"]
        ∨ (k = "min_time_btw_emails" ∧ o₁.isSome)
        ∨ (k = "max_new_leads_per_day" ∧ o₂.isSome)
        ∨ (k = "schedule_start_time" ∧ o₃.isSome))
    ∧ (∀ name track stop unsub plain force esp fup cid tag pause limit thr ooo cat k,
        k ∈ (updateCampaignSettingsData name track stop unsub plain force esp fup
              cid tag pause limit thr ooo cat).map Prod.fst →
        (k = "name" ∧ name.isSome) ∨ (k = "track_settings" ∧ track.isSome)
        ∨ (k = "stop_lead_settings" ∧ stop.isSome)
        ∨ (k = "unsubscribe_text" ∧ unsub.isSome)
        ∨ (k = "send_as_plain_text" ∧ plain.isSome)
        ∨ (k = "force_plain_text" ∧ force.isSome)
        ∨ (k = "enable_ai_esp_matching" ∧ esp.isSome)
        ∨ (k = "follow_up_percentage" ∧ fup.isSome)
        ∨ (k = "client_id" ∧ cid.isSome)
        ∨ (k = "add_unsubscribe_tag" ∧ tag.isSome)
        ∨ (k = "auto_pause_domain_leads_on_reply" ∧ pause.isSome)
        ∨ (k = "ignore_ss_mailbox_sending_limit" ∧ limit.isSome)
        ∨ (k = "bounce_autopause_threshold" ∧ thr.isSome)
        ∨ (k = "out_of_office_detection_settings" ∧ ooo.isSome)
        ∨ (k = "ai_categorisation_options" ∧ cat.isSome))
    ∧ (∀ sd ed tz k,
        k ∈ (getCampaignSequenceAnalyticsParams sd ed tz).map Prod.fst →
        k ∈ ["start_date", "end_date"] ∨ (k = "time_zone" ∧ tz.isSome)) := by
  refine ⟨rfl, ?_, ?_, ?_⟩
  · intro tz days sh eh o₁ o₂ o₃ k h
    simp only [updateCampaignScheduleData] at h
    rcases mem_keys_setIfSome h with ⟨rfl, hs⟩ | h
    · exact Or.inr (Or.inr (Or.inr ⟨rfl, hs⟩))
    rcases mem_keys_setIfSome h with ⟨rfl, hs⟩ | h
    · exact Or.inr (Or.inr (Or.inl ⟨rfl, hs⟩))
    rcases mem_keys_setIfSome h with ⟨rfl, hs⟩ | h
    · exact Or.inr (Or.inl ⟨rfl, hs⟩)
    · simp only [List.map_cons, List.map_nil, List.mem_cons, List.not_mem_nil,
        or_false] at h
      rcases h with rfl | rfl | rfl | rfl <;> exact Or.inl (by simp)
  · intro name track stop unsub plain force esp fup cid tag pause limit thr ooo cat k h
    simp only [updateCampaignSettingsData] at h
    rcases mem_keys_setIfSome h with ⟨rfl, hs⟩ | h
    · exact Or.inr (Or.inr (Or.inr (Or.inr (Or.inr (Or.inr (Or.inr (Or.inr (Or.inr
        (Or.inr (Or.inr (Or.inr (Or.inr (Or.inr ⟨rfl, hs⟩)))))))))))))
    rcases mem_keys_setIfSome h with ⟨rfl, hs⟩ | h
    · exact Or.inr (Or.inr (Or.inr (Or.inr (Or.inr (Or.inr (Or.inr (Or.inr (Or.inr
        (Or.inr (Or.inr (Or.inr (Or.inr (Or.inl ⟨rfl, hs⟩)))))))))))))
    rcases mem_keys_setIfSome h with ⟨rfl, hs⟩ | h
    · exact Or.inr (Or.inr (Or.inr (Or.inr (Or.inr (Or.inr (Or.inr (Or.inr (Or.inr
        (Or.inr (Or.inr (Or.inr (Or.inl ⟨rfl, hs⟩))))))))))))
    rcases mem_keys_setIfSome h with ⟨rfl, hs⟩ | h
    · exact Or.inr (Or.inr (Or.inr (Or.inr (Or.inr (Or.inr (Or.inr (Or.inr (Or.inr
        (Or.inr (Or.inr (Or.inl ⟨rfl, hs⟩)))))))))))
    rcases mem_keys_setIfSome h with ⟨rfl, hs⟩ | h
    · exact Or.inr (Or.inr (Or.inr (Or.inr (Or.inr (Or.inr (Or.inr (Or.inr (Or.inr
        (Or.inr (Or.inl ⟨rfl, hs⟩))))))))))
    rcases mem_keys_setIfSome h with ⟨rfl, hs⟩ | h
    · exact Or.inr (Or.inr (Or.inr (Or.inr (Or.inr (Or.inr (Or.inr (Or.inr (Or.inr
        (Or.inl ⟨rfl, hs⟩)))))))))
    rcases mem_keys_setIfSome h with ⟨rfl, hs⟩ | h
    · exact Or.inr (Or.inr (Or.inr (Or.inr (Or.inr (Or.inr (Or.inr (Or.inr
        (Or.inl ⟨rfl, hs⟩))))))))
    rcases mem_keys_setIfSome h with ⟨rfl, hs⟩ | h
    · exact Or.inr (Or.inr (Or.inr (Or.inr (Or.inr (Or.inr (Or.inr
        (Or.inl ⟨rfl, hs⟩)))))))
    rcases mem_keys_setIfSome h with ⟨rfl, hs⟩ | h
    · exact Or.inr (Or.inr (Or.inr (Or.inr (Or.inr (Or.inr (Or.inl ⟨rfl, hs⟩))))))
    rcases mem_keys_setIfSome h with ⟨rfl, hs⟩ | h
    · exact Or.inr (Or.inr (Or.inr (Or.inr (Or.inr (Or.inl ⟨rfl, hs⟩)))))
    rcases mem_keys_setIfSome h with ⟨rfl, hs⟩ | h
    · exact Or.inr (Or.inr (Or.inr (Or.inr (Or.inl ⟨rfl, hs⟩))))
    rcases mem_keys_setIfSome h with ⟨rfl, hs⟩ | h
    · exact Or.inr (Or.inr (Or.inr (Or.inl ⟨rfl, hs⟩)))
    rcases mem_keys_setIfSome h with ⟨rfl, hs⟩ | h
    · exact Or.inr (Or.inr (Or.inl ⟨rfl, hs⟩))
    rcases mem_keys_setIfSome h with ⟨rfl, hs⟩ | h
    · exact Or.inr (Or.inl ⟨rfl, hs⟩)
    rcases mem_keys_setIfSome h with ⟨rfl, hs⟩ | h
    · exact Or.inl ⟨rfl, hs⟩
    · simp at h
  · intro sd ed tz k h
    cases tz with
    | none => exact Or.inl (by simpa [getCampaignSequenceAnalyticsParams] using h)
    | some s =>
        by_cases hs : s = ""
        · subst hs
          exact Or.inl (by simpa [getCampaignSequenceAnalyticsParams] using h)
        · simp only [getCampaignSequenceAnalyticsParams, if_neg hs] at h
          rcases mem_keys_dictSet "time_zone" (Json.str s) h with rfl | h
          · exact Or.inr ⟨rfl, rfl⟩
          · exact Or.inl (by simpa using h)

theorem c4_optional_args_omitted_when_unset_witness :
    ("start_hour" ∈ ["timezone", "days_of_the_week", "start_hour", "end_hour"]
       ∨ ("start_hour" = "min_time_btw_emails"
            ∧ (none : Option Int).isSome)
       ∨ ("start_hour" = "max_new_leads_per_day"
            ∧ (none : Option Int).isSome)
       ∨ ("start_hour" = "schedule_start_time"
            ∧ (none : Option String).isSome)) :=
  c4_optional_args_omitted_when_unset.2.1 "Australia/Sydney" [1, 2, 3, 4, 5]
    "10:00" "23:00" none none none "start_hour" (by decide)

/-- C1: whatever the context shape and whatever exception the operation
body raises, a tool call returns a string (`.ok`), never a propagated
exception; and each of the three invalid-context shapes yields the
corresponding configuration-error string. -/
theorem c1_tool_boundary_never_raises :
    ∀ (ctx : Ctx) (body : SmartleadClient → Except PyErr Json),
      (∃ s, runTool ctx body = .ok s)
      ∧ (ctx.has_lifespan_context = false →
          runTool ctx body = .ok "Error: Request context not properly initialized")
      ∧ (ctx.has_lifespan_context = true → ctx.has_smartlead_client = false →
          runTool ctx body = .ok "Error: Smartlead client not found in context")
      ∧ (ctx.has_lifespan_context = true → ctx.has_smartlead_client = true →
          ctx.client_is_smartlead = false →
          runTool ctx body = .ok "Error: Invalid Smartlead client type in context") := by
  intro ctx body
  obtain ⟨hl, hs, ht, cl⟩ := ctx
  refine ⟨?_, ?_, ?_, ?_⟩
  · cases hl with
    | false => exact ⟨_, rfl⟩
    | true =>
        cases hs with
        | false => exact ⟨_, rfl⟩
        | true =>
            cases ht with
            | false => exact ⟨_, rfl⟩
            | true =>
                cases hb : body cl with
                | ok r =>
                    exact ⟨format_response r,
                      by simp [runTool, get_client_from_context, hb]⟩
                | error e =>
                    exact ⟨handle_api_error e,
                      by simp [runTool, get_client_from_context, hb]⟩
  · intro h
    subst h
    rfl
  · intro h₁ h₂
    subst h₁
    subst h₂
    rfl
  · intro h₁ h₂ h₃
    subst h₁
    subst h₂
    subst h₃
    rfl

theorem c1_tool_boundary_never_raises_witness :
    runTool ⟨true, false, true, ⟨"key", "https://server.smartlead.ai/api/v1", 30, false⟩⟩
        (fun _ => .error (.smartleadAPIError 500 (.str "boom") none))
      = .ok "Error: Smartlead client not found in context" :=
  (c1_tool_boundary_never_raises
    ⟨true, false, true, ⟨"key", "https://server.smartlead.ai/api/v1", 30, false⟩⟩
    (fun _ => .error (.smartleadAPIError 500 (.str "boom") none))).2.2.1 rfl rfl

/-- C2 counterexample: a `400` response whose body parses as a JSON
*array* does not produce the structured error — `response_data.get(...)`
raises `AttributeError` (a list has no `.get`), so not every failure of
the request operation surfaces as the structured error type. -/
theorem c2_counterexample_array_error_body :
    requestOutcome (.response 400 (some (.arr [])) "[]")
      = .error (.attributeError "\x27list\x27 object has no attribute \x27get\x27") := rfl

/-- C2 (amended): for failures whose body parses as a JSON object — and
for non-JSON bodies, which are wrapped as one — a status `≥ 400` raises
the structured error with that status, the body's `message` (default
`"Unknown error"`) and its `errors` (default empty); transport failures
are re-raised as the same error type with status 500 and a descriptive
message; and the tool boundary turns the structured error into a string
that carries the numeric status code and the message. -/
theorem c2_structured_error_channel :
    (∀ (status : Nat) (kvs : List (String × Json)) (text : String), status ≥ 400 →
        requestOutcome (.response status (some (.obj kvs)) text)
          = .error (.smartleadAPIError status
              ((dictGet kvs "message").getD (.str "Unknown error"))
              (some ((dictGet kvs "errors").getD (.obj [])))))
    ∧ (∀ (status : Nat) (text : String), status ≥ 400 →
        requestOutcome (.response status none text)
          = .error (.smartleadAPIError status (.str text) (some (.obj []))))
    ∧ (∀ msg, requestOutcome (.networkError msg)
        = .error (.smartleadAPIError 500 (.str ("Request error: " ++ msg)) none))
    ∧ (∀ (status : Nat) (message : Json) (details : Option Json), ∃ rest,
        handle_api_error (.smartleadAPIError status message details)
          = "Error (" ++ toString status ++ "): " ++ pyStr message ++ rest)
    ∧ (∀ (cl : SmartleadClient) (e : PyErr),
        runTool ⟨true, true, true, cl⟩ (fun _ => .error e)
          = .ok (handle_api_error e)) := by
  refine ⟨?_, ?_, fun msg => rfl, ?_, fun cl e => rfl⟩
  · intro status kvs text h
    simp only [requestOutcome, jsonGet]
    rw [if_pos h]
  · intro status text h
    simp only [requestOutcome, jsonGet]
    rw [if_pos h]
    rfl
  · intro status message details
    cases details with
    | none => exact ⟨"", by simp [handle_api_error]⟩
    | some d =>
        by_cases hd : pyTruthy d
        · refine ⟨"\nDetails: " ++ jsonDumpsInd 0 d, ?_⟩
          simp [handle_api_error, hd, String.append_assoc]
        · exact ⟨"", by simp [handle_api_error, hd]⟩

theorem c2_structured_error_channel_witness :
    requestOutcome (.response 404 (some (.obj [("message", .str "Not found")])) "")
      = .error (.smartleadAPIError 404 (.str "Not found") (some (.obj [])))
    ∧ ∃ rest, handle_api_error (.smartleadAPIError 404 (.str "Not found") (some (.obj [])))
        = "Error (" ++ toString (404 : Nat) ++ "): " ++ pyStr (.str "Not found") ++ rest :=
  ⟨((c2_structured_error_channel.1 404 [("message", .str "Not found")] ""
      (by decide)).trans (by rfl)),
   c2_structured_error_channel.2.2.2.1 404 (.str "Not found") (some (.obj []))⟩

/-- C3 counterexample: a `200` response whose body parses to the JSON
primitive `true` makes the tool return Python's `str(True) = "True"`,
not the JSON re-serialization `"true"` — so not every JSON-parseable
body is re-serialized as JSON. -/
theorem c3_counterexample_primitive_body :
    listCampaignsTool
        ⟨true, true, true, ⟨"key", "https://server.smartlead.ai/api/v1", 30, false⟩⟩
        (.response 200 (some (.bool true)) "true")
      = .ok "True"
    ∧ jsonDumps (.bool true) = "true"
    ∧ ("True" : String) ≠ "true" := ⟨rfl, rfl, by decide⟩

/-- C3 (amended): for a `< 400` response the client returns the parsed
JSON value unchanged, and when that value is an object or an array the
tool result is exactly its single-line JSON re-serialization; a body
that fails JSON parsing is wrapped as `{"message": <text>}` and
serialized as such.  (A body parsing to a JSON primitive instead goes
through Python `str`, per the counterexample.) -/
theorem c3_success_round_trip :
    (∀ (status : Nat) (body : Json) (text : String), status < 400 →
        requestOutcome (.response status (some body) text) = .ok body)
    ∧ (∀ (cl : SmartleadClient) (status : Nat) (body : Json) (text : String),
        status < 400 → body.isContainer = true →
        listCampaignsTool ⟨true, true, true, cl⟩ (.response status (some body) text)
          = .ok (jsonDumps body))
    ∧ (∀ (cl : SmartleadClient) (status : Nat) (text : String), status < 400 →
        listCampaignsTool ⟨true, true, true, cl⟩ (.response status none text)
          = .ok (jsonDumps (.obj [("message", .str text)]))) := by
  have hro : ∀ (status : Nat) (jb : Option Json) (text : String), status < 400 →
      requestOutcome (.response status jb text)
        = .ok (match jb with
               | some j => j
               | none => Json.obj [("message", .str text)]) := by
    intro status jb text h
    simp only [requestOutcome]
    rw [if_neg (Nat.not_le_of_lt h)]
  refine ⟨fun status body text h => hro status (some body) text h, ?_, ?_⟩
  · intro cl status body text h hcont
    show (match requestOutcome (.response status (some body) text) with
          | .error e => Except.ok (handle_api_error e)
          | .ok response => .ok (format_response response))
        = .ok (jsonDumps body)
    rw [hro status (some body) text h]
    cases body with
    | obj kvs => rfl
    | arr xs => rfl
    | null => simp [Json.isContainer] at hcont
    | bool b => simp [Json.isContainer] at hcont
    | num n => simp [Json.isContainer] at hcont
    | str s => simp [Json.isContainer] at hcont
  · intro cl status text h
    show (match requestOutcome (.response status none text) with
          | .error e => Except.ok (handle_api_error e)
          | .ok response => .ok (format_response response))
        = .ok (jsonDumps (.obj [("message", .str text)]))
    rw [hro status none text h]
    rfl

theorem c3_success_round_trip_witness :
    listCampaignsTool
        ⟨true, true, true, ⟨"key", "https://server.smartlead.ai/api/v1", 30, false⟩⟩
        (.response 200 (some (.obj [("ok", .bool true)])) "")
      = .ok "\x7b\"ok\": true\x7d" :=
  (c3_success_round_trip.2.1 ⟨"key", "https://server.smartlead.ai/api/v1", 30, false⟩
    200 (.obj [("ok", .bool true)]) "" (by decide) rfl).trans (by rfl)
